import Mathlib

set_option maxRecDepth 16384

/-!
Shallow embedding of the Citizen_AI Flask application (`src/app.py`) and proofs
about its observable behaviour.  Pure helper functions of the source become Lean
functions; each route handler becomes a function from its inputs (session,
request fields, a commit-success flag for the database, and the current table
contents) to the resulting table contents and an abstract `Response`.  The
external polarity scorer (TextBlob) and the external password hashing
primitives (werkzeug) are parameters of the functions that use them.
-/

namespace CitizenAI

/-- Python whitespace characters recognised by `str.strip()`. -/
def pyIsSpace (c : Char) : Bool :=
  c == ' ' || c == '\t' || c == '\n' || c == '\r' || c == '\x0b' || c == '\x0c'

/-- Model of Python `str.strip()`: drop whitespace from both ends. -/
def pyStrip (s : String) : String :=
  String.mk (((s.data.dropWhile pyIsSpace).reverse.dropWhile pyIsSpace).reverse)

/-- Model of Python `str.lower()` (ASCII case folding, which covers every
keyword the application tests). -/
def strLower (s : String) : String :=
  String.mk (s.data.map Char.toLower)

/-- Does the second character list occur as a prefix of the first argument list?
Auxiliary for substring containment. -/
def charsHasPrefix : List Char → List Char → Bool
  | [], _ => true
  | _ :: _, [] => false
  | c :: cs, d :: ds => c == d && charsHasPrefix cs ds

/-- Does `needle` occur as a contiguous sublist of the haystack? -/
def charsHasSub (needle : List Char) : List Char → Bool
  | [] => charsHasPrefix needle []
  | d :: ds => charsHasPrefix needle (d :: ds) || charsHasSub needle ds

/-- Model of the Python `in` operator on strings: substring containment. -/
def strContains (haystack needle : String) : Bool :=
  charsHasSub needle.data haystack.data

/-- Model of `any(word in s for word in kws)`. -/
def anyKw (kws : List String) (s : String) : Bool :=
  kws.any (fun w => strContains s w)

/-- Keyword set of the licenses/permits category (`app.py` line 75). -/
def kwLicenses : List String := ["license", "permit", "registration", "id"]

/-- Keyword set of the voting/elections category (`app.py` line 92). -/
def kwVoting : List String := ["vote", "voting", "election", "ballot"]

/-- Keyword set of the tax category (`app.py` line 109). -/
def kwTax : List String := ["tax", "taxes", "irs", "refund"]

/-- Keyword set of the social services/benefits category (`app.py` line 127). -/
def kwSocial : List String := ["social", "benefits", "assistance", "welfare", "food", "medicaid"]

/-- Keyword set of the legal/court category (`app.py` line 145). -/
def kwLegal : List String := ["court", "legal", "lawsuit", "ticket", "fine"]

/-- Template reply for the licenses/permits category (`app.py` lines 76-90). -/
def licensesTemplate : String := "Regarding your question about licenses and permits:

For most licenses and permits, you'll need to:
1. Visit your local government office or official website
2. Bring required documentation (usually ID, proof of residence, application forms)
3. Pay applicable fees
4. Allow processing time (varies by type)

Common types:
- Driver's License: Contact your local DMV
- Business License: Visit your city/county clerk's office
- Building Permit: Contact your local building department
- Professional License: Check with your state's professional licensing board

Would you like specific information about a particular type of license or permit?"

/-- Template reply for the voting/elections category (`app.py` lines 93-107). -/
def votingTemplate : String := "Regarding voting and elections:

To participate in elections, you need to:
1. Register to vote (if not already registered)
2. Find your polling location
3. Understand what's on your ballot
4. Know your voting rights

Key resources:
- Voter registration: Contact your local election office or register online
- Polling locations: Check your state's Secretary of State website
- Sample ballots: Available on your county election website
- Voting rights: Protected by federal and state law

Upcoming elections and deadlines can be found on your local election office website."

/-- Template reply for the tax category (`app.py` lines 110-125). -/
def taxTemplate : String := "Regarding tax matters:

For tax assistance, here are your main options:
1. IRS website (irs.gov) for federal tax information
2. Your state's revenue department for state taxes
3. Local tax assessor for property taxes
4. Free tax preparation programs (VITA/TCE) for qualifying individuals

Common tax services:
- Filing tax returns
- Getting tax refunds
- Payment plans for owed taxes
- Tax transcripts and records
- Resolving tax issues

For immediate assistance, you can call the IRS helpline or visit a local tax assistance center."

/-- Template reply for the social services/benefits category (`app.py` lines 128-143). -/
def socialTemplate : String := "Regarding social services and benefits:

Common assistance programs include:
1. SNAP (Food assistance)
2. Medicaid (Healthcare)
3. TANF (Temporary assistance)
4. Housing assistance
5. Unemployment benefits

To apply:
- Visit your local Department of Social Services
- Apply online through your state's benefits portal
- Call the benefits hotline in your area
- Bring required documentation (ID, income proof, etc.)

Eligibility varies by program and income level. Most applications can be started online and completed in person."

/-- Template reply for the legal/court category (`app.py` lines 146-160). -/
def legalTemplate : String := "Regarding legal and court matters:

For court-related issues:
1. Traffic tickets: Pay online, by mail, or contest in court
2. Small claims: File at your local courthouse
3. Legal aid: Free/low-cost legal help for qualifying individuals
4. Court records: Available through clerk of court

Important:
- Never ignore court notices or tickets
- Deadlines are strictly enforced
- Legal aid organizations can help if you can't afford an attorney
- Court self-help centers provide guidance for representing yourself

Contact your local courthouse for specific procedures and requirements."

/-- Default template reply when no keyword set matches (`app.py` lines 163-178). -/
def defaultTemplate : String := "Thank you for your question about government services.

I'm here to help with information about:
- Licenses and permits
- Voting and elections  
- Tax matters
- Social services and benefits
- Court and legal issues
- Municipal services

For the most accurate and up-to-date information about your specific situation, I recommend:
1. Visiting your local government office
2. Checking official government websites (.gov domains)
3. Calling the relevant department directly

Could you provide more details about what specific government service or information you're looking for? I'd be happy to point you in the right direction."

/-- Embedding of `get_ai_response` (`app.py` lines 66-178): lower-case the
question and test the five keyword sets in source order, returning the
corresponding template, or the default template when none matches. -/
def get_ai_response (question : String) : String :=
  let question_lower := strLower question
  if anyKw kwLicenses question_lower then licensesTemplate
  else if anyKw kwVoting question_lower then votingTemplate
  else if anyKw kwTax question_lower then taxTemplate
  else if anyKw kwSocial question_lower then socialTemplate
  else if anyKw kwLegal question_lower then legalTemplate
  else defaultTemplate

/-- The five (keyword set, template) pairs in the priority order stated by the
specification: licenses/permits, voting/elections, tax, social
services/benefits, legal/court.  Used only by the spec-side responder. -/
def specCategories : List (List String × String) :=
  [(kwLicenses, licensesTemplate), (kwVoting, votingTemplate), (kwTax, taxTemplate),
   (kwSocial, socialTemplate), (kwLegal, legalTemplate)]

/-- Spec-side responder, written from the specification words: lower-case the
input, find the first keyword set (in priority order) that matches, return its
template; return the sixth default template when no set matches. -/
def responderSpec (question : String) : String :=
  let ql := strLower question
  match specCategories.find? (fun c => anyKw c.1 ql) with
  | some c => c.2
  | none => defaultTemplate

/-- Negative word list of the chat-turn classifier (`app.py` line 329). -/
def negativeWords : List String :=
  ["angry", "frustrated", "upset", "hate", "terrible", "awful", "disappointed", "bad"]

/-- Positive word list of the chat-turn classifier (`app.py` line 331). -/
def positiveWords : List String :=
  ["happy", "great", "excellent", "love", "amazing", "wonderful", "good", "satisfied"]

/-- Embedding of the inline chat-turn sentiment classifier
(`app.py` lines 327-332): negative words first, then positive words,
else neutral. -/
def chatTurnSentiment (user_input : String) : String :=
  let user_lower := strLower user_input
  if anyKw negativeWords user_lower then "negative"
  else if anyKw positiveWords user_lower then "positive"
  else "neutral"

/-- Embedding of `analyze_sentiment` (`app.py` lines 180-194).  The TextBlob
polarity scorer is external to the repository, so it is a parameter: it either
returns a polarity (modelled as a rational) or fails with an exception
message.  The `try/except` of the source becomes the `match` on the scorer
result: any scorer failure yields `Neutral`. -/
def analyze_sentiment (scorer : String → Except String ℚ) (text : String) : String :=
  match scorer text with
  | .ok polarity =>
      if polarity > 1/10 then "Positive"
      else if polarity < -(1/10) then "Negative"
      else "Neutral"
  | .error _ => "Neutral"

/-- Row of the `User` table (`app.py` lines 40-48).  `id` models the
auto-increment primary key. -/
structure UserRow where
  id : Nat
  full_name : String
  email : String
  password_hash : String
deriving DecidableEq

/-- Row of the `ChatHistory` table (`app.py` lines 50-55); the timestamp is
represented by insertion order. -/
structure ChatRow where
  user_id : Nat
  question : String
  response : String
deriving DecidableEq

/-- Row of the `Feedback` table (`app.py` lines 57-63); the timestamp is
represented by insertion order. -/
structure FeedbackRow where
  user_id : Nat
  question : String
  feedback_text : String
  sentiment : String
deriving DecidableEq

/-- The statistics dictionary built by `get_feedback_stats`. -/
structure Stats where
  positive : Nat
  neutral : Nat
  negative : Nat
  total : Nat
deriving DecidableEq

/-- Abstract HTTP responses produced by the route handlers. -/
inductive Response where
  | redirect (location : String)
  | render (template : String)
  | renderDashboard (stats : Stats) (recent : List FeedbackRow)
  | jsonChat (reply : String) (sentiment : String) (question : String)
  | jsonError (status : Nat) (message : String)
deriving DecidableEq

/-- A flash message: text and category, as in Flask `flash(text, category)`. -/
abbrev Flash := String × String

/-- Body of the tally loop of `get_feedback_stats` (`app.py` lines 204-211):
bump one counter according to the lower-cased sentiment label. -/
def statStep (stats : Stats) (f : FeedbackRow) : Stats :=
  let s := strLower f.sentiment
  if s == "positive" then { stats with positive := stats.positive + 1 }
  else if s == "negative" then { stats with negative := stats.negative + 1 }
  else { stats with neutral := stats.neutral + 1 }

/-- Embedding of `get_feedback_stats` (`app.py` lines 196-213): zero stats
without a session; otherwise filter the Feedback table to the session user,
start from zero counts with `total` the number of rows, and bump one counter
per row by lower-cased sentiment label. -/
def get_feedback_stats (sess : Option Nat) (db : List FeedbackRow) : Stats :=
  match sess with
  | none => ⟨0, 0, 0, 0⟩
  | some uid =>
      let feedback_entries := db.filter (fun f => f.user_id == uid)
      feedback_entries.foldl statStep ⟨0, 0, 0, feedback_entries.length⟩

/-- Embedding of the `signup` POST handler (`app.py` lines 244-280).
`gen` is werkzeug's external `generate_password_hash`; `commitOk` tells
whether the insert-and-commit of the new row succeeds (on failure the source
rolls back, logs, and flashes an error).  Returns the User table after the
request, the response, and the flashed messages. -/
def signup (gen : String → String) (commitOk : Bool)
    (full_name email password : String) (db : List UserRow) :
    List UserRow × Response × List Flash :=
  let full_name := pyStrip full_name
  let email := pyStrip email
  if full_name == "" || email == "" || password == "" then
    (db, .render "signup", [("Please fill in all fields.", "error")])
  else
    match db.find? (fun u => u.email == email) with
    | some _ =>
        (db, .render "signup", [("Email already registered. Please login instead.", "error")])
    | none =>
        let password_hash := gen password
        let new_user : UserRow := ⟨db.length + 1, full_name, email, password_hash⟩
        if commitOk then
          (db ++ [new_user], .redirect "/login",
            [("Account created successfully! Please log in.", "success")])
        else
          (db, .render "signup", [("Error creating account. Please try again.", "error")])

/-- Embedding of the `login` POST handler (`app.py` lines 221-242).
`check` is werkzeug's external `check_password_hash`.  Returns the response,
the flashed messages, and the session contents set on success
(`user_id`, `user_name`). -/
def login (check : String → String → Bool)
    (email password : String) (db : List UserRow) :
    Response × List Flash × Option (Nat × String) :=
  let email := pyStrip email
  if email == "" || password == "" then
    (.render "login", [("Please fill in all fields.", "error")], none)
  else
    match db.find? (fun u => u.email == email) with
    | some user =>
        if check user.password_hash password then
          (.redirect "/home", [("Login successful!", "success")], some (user.id, user.full_name))
        else
          (.render "login", [("Invalid email or password.", "error")], none)
    | none => (.render "login", [("Invalid email or password.", "error")], none)

/-- Embedding of the `chat_api` POST handler (`app.py` lines 298-338).
`commitOk` tells whether the insert-and-commit of the ChatHistory row
succeeds; on failure the handler answers 503 and the table is unchanged.
`message` is the `message` field of the form or JSON body, when present. -/
def chat_api (commitOk : Bool) (sess : Option Nat)
    (message : Option String) (db : List ChatRow) : List ChatRow × Response :=
  match sess with
  | none => (db, .jsonError 401 "Authentication required")
  | some uid =>
      match message with
      | none => (db, .jsonError 400 "Message is required")
      | some user_input =>
          if user_input == "" then (db, .jsonError 400 "Message is required")
          else
            let ai_reply := get_ai_response (pyStrip user_input)
            if commitOk then
              (db ++ [⟨uid, user_input, ai_reply⟩],
                .jsonChat ai_reply (chatTurnSentiment user_input) user_input)
            else
              (db, .jsonError 503 "AI service is temporarily unavailable. Please try again later.")

/-- Embedding of the `submit_feedback` POST handler (`app.py` lines 340-364).
The handler has no `try/except`: when the insert-and-commit fails
(`commitOk = false` on the insert path) the exception propagates, modelled as
`Except.error ()` in the response position — Flask then renders the generic
500 page.  The first component is the Feedback table actually persisted after
the request (a failed commit persists nothing). -/
def submit_feedback (scorer : String → Except String ℚ) (commitOk : Bool)
    (sess : Option Nat) (question feedback : String) (db : List FeedbackRow) :
    List FeedbackRow × Except Unit (Response × List Flash) :=
  match sess with
  | none => (db, .ok (.redirect "/login", []))
  | some uid =>
      let feedback_text := pyStrip feedback
      if feedback_text == "" then
        (db, .ok (.redirect "/chat", []))
      else
        let sentiment := analyze_sentiment scorer feedback_text
        if commitOk then
          (db ++ [⟨uid, question, feedback_text, sentiment⟩],
            .ok (.redirect "/chat",
              [("Thank you for your feedback! It helps us improve our services.", "success")]))
        else
          (db, .error ())

/-- Embedding of the `dashboard` GET handler (`app.py` lines 366-380):
without a session, redirect to `/login`; otherwise render the dashboard with
the user's statistics and the 10 most recent feedback rows (newest first;
insertion order stands in for timestamps). -/
def dashboard (sess : Option Nat) (db : List FeedbackRow) : Response :=
  match sess with
  | none => .redirect "/login"
  | some uid =>
      .renderDashboard (get_feedback_stats (some uid) db)
        (((db.filter (fun f => f.user_id == uid)).reverse).take 10)


/-- Spec-side test: the row's sentiment label is `positive` up to case. -/
def isPosLabel (f : FeedbackRow) : Bool := strLower f.sentiment == "positive"

/-- Spec-side test: the row's sentiment label is `negative` up to case. -/
def isNegLabel (f : FeedbackRow) : Bool := strLower f.sentiment == "negative"

/-- Spec-side test: the row's sentiment label is neither `positive` nor
`negative` up to case (tallied as neutral). -/
def isNeuLabel (f : FeedbackRow) : Bool := !(isPosLabel f) && !(isNegLabel f)

/-- The tally loop adds, to the initial counters, the number of rows carrying
each (case-folded) label, and never touches `total`. -/
theorem foldl_statStep (l : List FeedbackRow) (s : Stats) :
    l.foldl statStep s =
      ⟨s.positive + l.countP isPosLabel, s.neutral + l.countP isNeuLabel,
       s.negative + l.countP isNegLabel, s.total⟩ := by
  induction l generalizing s with
  | nil =>
      cases s
      simp
  | cons a l ih =>
      obtain ⟨sp, su, sn, st⟩ := s
      rw [List.foldl_cons, ih]
      by_cases hp : isPosLabel a = true
      · have hp' : (strLower a.sentiment == "positive") = true := hp
        have hps : strLower a.sentiment = "positive" := eq_of_beq hp'
        have hng : isNegLabel a = false := by simp [isNegLabel, hps]
        have hnu : isNeuLabel a = false := by simp [isNeuLabel, hp]
        have h1 : (a :: l).countP isPosLabel = l.countP isPosLabel + 1 :=
          List.countP_cons_of_pos _ _ hp
        have h2 : (a :: l).countP isNegLabel = l.countP isNegLabel :=
          List.countP_cons_of_neg _ _ (by simp [hng])
        have h3 : (a :: l).countP isNeuLabel = l.countP isNeuLabel :=
          List.countP_cons_of_neg _ _ (by simp [hnu])
        have hstep : statStep ⟨sp, su, sn, st⟩ a = ⟨sp + 1, su, sn, st⟩ := by
          simp [statStep, hps]
        rw [h1, h2, h3, hstep]
        simp [Stats.mk.injEq]
        omega
      · have hp' : (strLower a.sentiment == "positive") = false := by
          cases hb : (strLower a.sentiment == "positive") with
          | true => exact absurd hb hp
          | false => rfl
        by_cases hn : isNegLabel a = true
        · have hn' : (strLower a.sentiment == "negative") = true := hn
          have hnu : isNeuLabel a = false := by simp [isNeuLabel, hn]
          have h1 : (a :: l).countP isPosLabel = l.countP isPosLabel :=
            List.countP_cons_of_neg _ _ (by simp [isPosLabel, hp'])
          have h2 : (a :: l).countP isNegLabel = l.countP isNegLabel + 1 :=
            List.countP_cons_of_pos _ _ hn
          have h3 : (a :: l).countP isNeuLabel = l.countP isNeuLabel :=
            List.countP_cons_of_neg _ _ (by simp [hnu])
          have hstep : statStep ⟨sp, su, sn, st⟩ a = ⟨sp, su, sn + 1, st⟩ := by
            simp [statStep, hp', hn']
          rw [h1, h2, h3, hstep]
          simp [Stats.mk.injEq]
          omega
        · have hn' : (strLower a.sentiment == "negative") = false := by
            cases hb : (strLower a.sentiment == "negative") with
            | true => exact absurd hb hn
            | false => rfl
          have hnu : isNeuLabel a = true := by simp [isNeuLabel, isPosLabel, isNegLabel, hp', hn']
          have h1 : (a :: l).countP isPosLabel = l.countP isPosLabel :=
            List.countP_cons_of_neg _ _ (by simp [isPosLabel, hp'])
          have h2 : (a :: l).countP isNegLabel = l.countP isNegLabel :=
            List.countP_cons_of_neg _ _ (by simp [isNegLabel, hn'])
          have h3 : (a :: l).countP isNeuLabel = l.countP isNeuLabel + 1 :=
            List.countP_cons_of_pos _ _ hnu
          have hstep : statStep ⟨sp, su, sn, st⟩ a = ⟨sp, su + 1, sn, st⟩ := by
            simp [statStep, hp', hn']
          rw [h1, h2, h3, hstep]
          simp [Stats.mk.injEq]
          omega

/-- C3: for every chat input, the chat-turn classifier lower-cases the input
and returns `negative` exactly when a negative word occurs, `positive` exactly
when no negative word but some positive word occurs, `neutral` exactly when
neither occurs; in particular an input containing both a negative and a
positive word is classified `negative`. -/
theorem C3_chat_turn_classifier (m : String) :
    (chatTurnSentiment m = "negative" ↔ anyKw negativeWords (strLower m) = true) ∧
    (chatTurnSentiment m = "positive" ↔
      (anyKw negativeWords (strLower m) = false ∧ anyKw positiveWords (strLower m) = true)) ∧
    (chatTurnSentiment m = "neutral" ↔
      (anyKw negativeWords (strLower m) = false ∧ anyKw positiveWords (strLower m) = false)) ∧
    (anyKw negativeWords (strLower m) = true → anyKw positiveWords (strLower m) = true →
      chatTurnSentiment m = "negative") := by
  cases h1 : anyKw negativeWords (strLower m) <;>
    cases h2 : anyKw positiveWords (strLower m) <;>
      simp [chatTurnSentiment, h1, h2]

/-- Witness for C3 at a concrete input containing both a negative and a
positive word. -/
theorem C3_chat_turn_classifier_witness :
    anyKw negativeWords (strLower "I hate this, but great service") = true ∧
    anyKw positiveWords (strLower "I hate this, but great service") = true ∧
    chatTurnSentiment "I hate this, but great service" = "negative" :=
  ⟨by decide, by decide,
    (C3_chat_turn_classifier "I hate this, but great service").2.2.2 (by decide) (by decide)⟩

/-- C2: the feedback classifier returns `Positive` exactly when the scorer
succeeds with polarity above 1/10, `Negative` exactly when it succeeds with
polarity below -1/10, `Neutral` when it succeeds in between, and `Neutral`
whenever the scorer fails — the failure never propagates (the classifier is a
total function). -/
theorem C2_feedback_classifier (scorer : String → Except String ℚ) (text : String) :
    (analyze_sentiment scorer text = "Positive" ↔
      ∃ p, scorer text = .ok p ∧ 1/10 < p) ∧
    (analyze_sentiment scorer text = "Negative" ↔
      ∃ p, scorer text = .ok p ∧ p < -(1/10)) ∧
    (∀ p, scorer text = .ok p → ¬ (1/10 < p) → ¬ (p < -(1/10)) →
      analyze_sentiment scorer text = "Neutral") ∧
    (∀ e, scorer text = .error e → analyze_sentiment scorer text = "Neutral") := by
  cases h : scorer text with
  | error e =>
      have hval : analyze_sentiment scorer text = "Neutral" := by
        simp [analyze_sentiment, h]
      refine ⟨?_, ?_, ?_, ?_⟩
      · rw [hval]
        refine iff_of_false (by decide) ?_
        rintro ⟨q, hq, _⟩
        exact Except.noConfusion hq
      · rw [hval]
        refine iff_of_false (by decide) ?_
        rintro ⟨q, hq, _⟩
        exact Except.noConfusion hq
      · intro q hq _ _
        exact hval
      · intro e2 _
        exact hval
  | ok p =>
      have hval : analyze_sentiment scorer text =
          (if 1/10 < p then "Positive" else if p < -(1/10) then "Negative" else "Neutral") := by
        simp [analyze_sentiment, h]
      by_cases hp : (1:ℚ)/10 < p
      · rw [if_pos hp] at hval
        refine ⟨?_, ?_, ?_, ?_⟩
        · rw [hval]
          exact iff_of_true rfl ⟨p, rfl, hp⟩
        · rw [hval]
          refine iff_of_false (by decide) ?_
          rintro ⟨q, hq, hlt⟩
          injection hq with hpq
          rw [← hpq] at hlt
          linarith
        · intro q hq h1 _
          injection hq with hpq
          rw [← hpq] at h1
          exact absurd hp h1
        · intro e2 he
          exact Except.noConfusion he
      · by_cases hn : p < -(1/10)
        · rw [if_neg hp, if_pos hn] at hval
          refine ⟨?_, ?_, ?_, ?_⟩
          · rw [hval]
            refine iff_of_false (by decide) ?_
            rintro ⟨q, hq, hlt⟩
            injection hq with hpq
            rw [← hpq] at hlt
            exact hp hlt
          · rw [hval]
            exact iff_of_true rfl ⟨p, rfl, hn⟩
          · intro q hq _ h2
            injection hq with hpq
            rw [← hpq] at h2
            exact absurd hn h2
          · intro e2 he
            exact Except.noConfusion he
        · rw [if_neg hp, if_neg hn] at hval
          refine ⟨?_, ?_, ?_, ?_⟩
          · rw [hval]
            refine iff_of_false (by decide) ?_
            rintro ⟨q, hq, hlt⟩
            injection hq with hpq
            rw [← hpq] at hlt
            exact hp hlt
          · rw [hval]
            refine iff_of_false (by decide) ?_
            rintro ⟨q, hq, hlt⟩
            injection hq with hpq
            rw [← hpq] at hlt
            exact hn hlt
          · intro q hq _ _
            exact hval
          · intro e2 he
            exact Except.noConfusion he

/-- Witness for C2: concrete scorers hitting the failure branch and the
in-between branch. -/
theorem C2_feedback_classifier_witness :
    analyze_sentiment (fun _ => Except.error "boom") "x" = "Neutral" ∧
    analyze_sentiment (fun _ => Except.ok 0) "x" = "Neutral" :=
  ⟨(C2_feedback_classifier (fun _ => Except.error "boom") "x").2.2.2 "boom" rfl,
    (C2_feedback_classifier (fun _ => Except.ok 0) "x").2.2.1 0 rfl
      (by norm_num) (by norm_num)⟩

/-- C4: with a session present, submitting feedback whose text is non-empty
after trimming inserts exactly the one corresponding row and redirects to the
chat page with a success flash; feedback that trims to the empty string
inserts nothing, flashes nothing, raises no error, and still redirects to the
chat page. -/
theorem C4_feedback_insertion (scorer : String → Except String ℚ) (c : Bool)
    (uid : Nat) (question feedback : String) (db : List FeedbackRow) :
    ((pyStrip feedback == "") = false →
      submit_feedback scorer true (some uid) question feedback db =
        (db ++ [⟨uid, question, pyStrip feedback,
                  analyze_sentiment scorer (pyStrip feedback)⟩],
          .ok (.redirect "/chat",
            [("Thank you for your feedback! It helps us improve our services.",
              "success")]))) ∧
    ((pyStrip feedback == "") = true →
      submit_feedback scorer c (some uid) question feedback db =
        (db, .ok (.redirect "/chat", []))) := by
  constructor <;> intro h <;> simp [submit_feedback, h]

/-- Witness for C4: a concrete non-empty submission and a concrete
whitespace-only submission. -/
theorem C4_feedback_insertion_witness :
    submit_feedback (fun _ => Except.ok 0) true (some 1) "q" " helpful " [] =
      ([⟨1, "q", pyStrip " helpful ", analyze_sentiment (fun _ => Except.ok 0) (pyStrip " helpful ")⟩],
        .ok (.redirect "/chat",
          [("Thank you for your feedback! It helps us improve our services.", "success")])) ∧
    submit_feedback (fun _ => Except.ok 0) false (some 1) "q" "   " [] =
      ([], .ok (.redirect "/chat", [])) :=
  ⟨(C4_feedback_insertion (fun _ => Except.ok 0) true 1 "q" " helpful " []).1 (by decide),
    (C4_feedback_insertion (fun _ => Except.ok 0) false 1 "q" "   " []).2 (by decide)⟩

/-- C8: without a session, a GET of the dashboard redirects to the login page,
while a POST to the chat API answers a 401 JSON error and never a redirect. -/
theorem C8_auth_gate (c : Bool) (m : Option String)
    (dbF : List FeedbackRow) (dbC : List ChatRow) :
    dashboard none dbF = Response.redirect "/login" ∧
    chat_api c none m dbC = (dbC, Response.jsonError 401 "Authentication required") ∧
    ∀ loc, (chat_api c none m dbC).2 ≠ Response.redirect loc := by
  refine ⟨rfl, rfl, ?_⟩
  intro loc h
  simp [chat_api] at h

/-- Witness for C8 at a concrete request. -/
theorem C8_auth_gate_witness :
    dashboard none [] = Response.redirect "/login" ∧
    chat_api true none (some "hello") [] =
      ([], Response.jsonError 401 "Authentication required") ∧
    (chat_api true none (some "hello") []).2 ≠ Response.redirect "/login" :=
  ⟨(C8_auth_gate true (some "hello") [] []).1,
    (C8_auth_gate true (some "hello") [] []).2.1,
    (C8_auth_gate true (some "hello") [] []).2.2 "/login"⟩

/-- C10: both keyword tests are substring containment on the lower-cased
input, not whole-word membership: any input containing `id` (even inside a
longer word) takes the licenses/permits template, and any input containing
`bad` (even inside a longer word) is classified `negative` by the chat-turn
classifier. -/
theorem C10_substring_matching (q m : String) :
    (strContains (strLower q) "id" = true → get_ai_response q = licensesTemplate) ∧
    (strContains (strLower m) "bad" = true → chatTurnSentiment m = "negative") := by
  constructor
  · intro h
    have hk : anyKw kwLicenses (strLower q) = true := by
      simp [anyKw, kwLicenses, h]
    simp [get_ai_response, hk]
  · intro h
    have hk : anyKw negativeWords (strLower m) = true := by
      simp [anyKw, negativeWords, h]
    simp [chatTurnSentiment, hk]

/-- Witness for C10: `id` inside `president`, `bad` inside `badminton`. -/
theorem C10_substring_matching_witness :
    strContains (strLower "president") "id" = true ∧
    get_ai_response "president" = licensesTemplate ∧
    strContains (strLower "badminton") "bad" = true ∧
    chatTurnSentiment "badminton" = "negative" :=
  ⟨by decide, (C10_substring_matching "president" "badminton").1 (by decide),
    by decide, (C10_substring_matching "president" "badminton").2 (by decide)⟩



/-- C1: the Responder agrees everywhere with the specification's priority
lookup (first matching keyword set in the order licenses/permits,
voting/elections, tax, social services/benefits, legal/court; default
template otherwise); in particular a question matching the voting set but not
the earlier licenses set gets the voting template, never the tax one. -/
theorem C1_responder_priority (q : String) :
    get_ai_response q = responderSpec q ∧
    (anyKw kwVoting (strLower q) = true → anyKw kwLicenses (strLower q) = false →
      get_ai_response q = votingTemplate) := by
  constructor
  · unfold get_ai_response responderSpec specCategories
    cases h1 : anyKw kwLicenses (strLower q) <;>
      cases h2 : anyKw kwVoting (strLower q) <;>
        cases h3 : anyKw kwTax (strLower q) <;>
          cases h4 : anyKw kwSocial (strLower q) <;>
            cases h5 : anyKw kwLegal (strLower q) <;>
              simp [h1, h2, h3, h4, h5]
  · intro hv hl
    simp [get_ai_response, hv, hl]

/-- Witness for C1 at the question from the specification, which matches both
the voting set and the tax set. -/
theorem C1_responder_priority_witness :
    anyKw kwVoting (strLower "Can I vote after paying my tax?") = true ∧
    anyKw kwTax (strLower "Can I vote after paying my tax?") = true ∧
    anyKw kwLicenses (strLower "Can I vote after paying my tax?") = false ∧
    get_ai_response "Can I vote after paying my tax?" = votingTemplate :=
  ⟨by decide, by decide, by decide,
    (C1_responder_priority "Can I vote after paying my tax?").2 (by decide) (by decide)⟩

/-- C9: for every user, the stats operation returns exactly the
case-insensitive tallies of that user's Feedback rows, with `total` the number
of those rows, and all four counts zero when the user owns no rows. -/
theorem C9_dashboard_stats (uid : Nat) (db : List FeedbackRow) :
    get_feedback_stats (some uid) db =
      ⟨(db.filter (fun f => f.user_id == uid)).countP isPosLabel,
       (db.filter (fun f => f.user_id == uid)).countP isNeuLabel,
       (db.filter (fun f => f.user_id == uid)).countP isNegLabel,
       (db.filter (fun f => f.user_id == uid)).length⟩ ∧
    (db.filter (fun f => f.user_id == uid) = [] →
      get_feedback_stats (some uid) db = ⟨0, 0, 0, 0⟩) := by
  have h : get_feedback_stats (some uid) db =
      ⟨(db.filter (fun f => f.user_id == uid)).countP isPosLabel,
       (db.filter (fun f => f.user_id == uid)).countP isNeuLabel,
       (db.filter (fun f => f.user_id == uid)).countP isNegLabel,
       (db.filter (fun f => f.user_id == uid)).length⟩ := by
    simp only [get_feedback_stats]
    rw [foldl_statStep]
    simp
  refine ⟨h, fun he => ?_⟩
  rw [h, he]
  simp

/-- Witness for C9: a store where user 1 owns two positive rows (one label
upper-cased) and one negative row, user 2 owns a neutral row, and user 5 owns
nothing. -/
theorem C9_dashboard_stats_witness :
    get_feedback_stats (some 1)
        [⟨1, "q1", "f1", "Positive"⟩, ⟨2, "q2", "f2", "Neutral"⟩,
         ⟨1, "q3", "f3", "POSITIVE"⟩, ⟨1, "q4", "f4", "Negative"⟩] =
      ⟨2, 0, 1, 3⟩ ∧
    get_feedback_stats (some 5)
        [⟨1, "q1", "f1", "Positive"⟩, ⟨2, "q2", "f2", "Neutral"⟩,
         ⟨1, "q3", "f3", "POSITIVE"⟩, ⟨1, "q4", "f4", "Negative"⟩] =
      ⟨0, 0, 0, 0⟩ := by
  constructor
  · rw [(C9_dashboard_stats 1
      [⟨1, "q1", "f1", "Positive"⟩, ⟨2, "q2", "f2", "Neutral"⟩,
       ⟨1, "q3", "f3", "POSITIVE"⟩, ⟨1, "q4", "f4", "Negative"⟩]).1]
    decide
  · exact (C9_dashboard_stats 5
      [⟨1, "q1", "f1", "Positive"⟩, ⟨2, "q2", "f2", "Neutral"⟩,
       ⟨1, "q3", "f3", "POSITIVE"⟩, ⟨1, "q4", "f4", "Negative"⟩]).2 (by decide)

/-- C5 counterexample: with a session and non-empty feedback, a failing
insert/commit in the feedback flow is not surfaced as a flash message — the
exception propagates out of the handler (rendered as the generic 500 page). -/
theorem C5_persistence_counterexample :
    (submit_feedback (fun _ => Except.ok 0) false (some 1) "q" "great help" []).2 =
      Except.error () := rfl

/-- C5 (amended): when the insert/commit fails, no row is persisted (the
tables are returned unchanged); the chat API surfaces the failure as a 503
JSON error, while the feedback flow propagates the exception (no flash). -/
theorem C5_persistence_failure (scorer : String → Except String ℚ) (uid : Nat)
    (m question feedback : String) (dbC : List ChatRow) (dbF : List FeedbackRow) :
    ((m == "") = false →
      chat_api false (some uid) (some m) dbC =
        (dbC, .jsonError 503 "AI service is temporarily unavailable. Please try again later.")) ∧
    ((pyStrip feedback == "") = false →
      submit_feedback scorer false (some uid) question feedback dbF =
        (dbF, .error ())) := by
  constructor <;> intro h <;> simp [chat_api, submit_feedback, h]

/-- Witness for the amended C5 at a concrete chat message and feedback text. -/
theorem C5_persistence_failure_witness :
    chat_api false (some 1) (some "hello") [] =
      ([], .jsonError 503 "AI service is temporarily unavailable. Please try again later.") ∧
    submit_feedback (fun _ => Except.ok 0) false (some 1) "q" "nice" [] =
      ([], .error ()) :=
  ⟨(C5_persistence_failure (fun _ => Except.ok 0) 1 "hello" "q" "nice" [] []).1 (by decide),
    (C5_persistence_failure (fun _ => Except.ok 0) 1 "hello" "q" "nice" [] []).2 (by decide)⟩

/-- A valid signup on a store without the (stripped) email appends exactly one
user row carrying the stripped name and email, the generated hash, and the
next id. -/
theorem signup_success (gen : String → String) (fn em pw : String) (db : List UserRow)
    (hfn : (pyStrip fn == "") = false) (hem : (pyStrip em == "") = false)
    (hpw : (pw == "") = false)
    (hfresh : db.find? (fun u => u.email == pyStrip em) = none) :
    signup gen true fn em pw db =
      (db ++ [⟨db.length + 1, pyStrip fn, pyStrip em, gen pw⟩], .redirect "/login",
        [("Account created successfully! Please log in.", "success")]) := by
  simp [signup, hfn, hem, hpw, hfresh]

/-- After that signup, looking the (stripped) email up in the store finds the
row just inserted. -/
theorem find_after_signup (gen : String → String) (fn em pw : String)
    (db : List UserRow)
    (hfresh : db.find? (fun u => u.email == pyStrip em) = none) :
    List.find? (fun u : UserRow => u.email == pyStrip em)
        (db ++ [{ id := db.length + 1, full_name := pyStrip fn,
                  email := pyStrip em, password_hash := gen pw }]) =
      some { id := db.length + 1, full_name := pyStrip fn,
             email := pyStrip em, password_hash := gen pw } := by
  rw [List.find?_append, hfresh]
  simp [List.find?]

/-- C6: after a successful signup, a second signup with the same email — any
(valid) name and password — fails with the duplicate-email flash and adds no
row; and a signup with an empty or missing field fails with the
fill-all-fields flash, leaves the store unchanged, and its response does not
depend on the store at all. -/
theorem C6_duplicate_email (gen : String → String) (c c2 : Bool)
    (fn em pw fn2 pw2 : String) (db : List UserRow)
    (hfn : (pyStrip fn == "") = false) (hem : (pyStrip em == "") = false)
    (hpw : (pw == "") = false)
    (hfresh : db.find? (fun u => u.email == pyStrip em) = none)
    (hfn2 : (pyStrip fn2 == "") = false) (hpw2 : (pw2 == "") = false) :
    signup gen c2 fn2 em pw2 (signup gen true fn em pw db).1 =
      ((signup gen true fn em pw db).1, .render "signup",
        [("Email already registered. Please login instead.", "error")]) ∧
    (∀ (fn0 em0 pw0 : String) (db0 db1 : List UserRow),
      ((pyStrip fn0 == "") = true ∨ (pyStrip em0 == "") = true ∨ (pw0 == "") = true) →
      signup gen c fn0 em0 pw0 db0 =
        (db0, .render "signup", [("Please fill in all fields.", "error")]) ∧
      (signup gen c fn0 em0 pw0 db0).2 = (signup gen c fn0 em0 pw0 db1).2) := by
  constructor
  · have hdb1 : (signup gen true fn em pw db).1 =
        db ++ [⟨db.length + 1, pyStrip fn, pyStrip em, gen pw⟩] := by
      rw [signup_success gen fn em pw db hfn hem hpw hfresh]
    have hvalid2 : ¬ (((pyStrip fn2 == "" || pyStrip em == "") || pw2 == "") = true) := by
      simp [hfn2, hem, hpw2]
    have hfind := find_after_signup gen fn em pw db hfresh
    rw [hdb1]
    simp only [signup]
    rw [if_neg hvalid2, hfind]
  · intro fn0 em0 pw0 db0 db1 h0
    have hcond : ((pyStrip fn0 == "" || pyStrip em0 == "") || pw0 == "") = true := by
      rcases h0 with h | h | h <;> simp [h]
    constructor
    · simp only [signup]
      rw [if_pos hcond]
    · simp only [signup]
      rw [if_pos hcond, if_pos hcond]

/-- Witness for C6: two concrete signups sharing an email, and a concrete
signup with an empty name. -/
theorem C6_duplicate_email_witness :
    signup (fun p => p) true "Bo" "a@b.c" "qq" ((signup (fun p => p) true "Al" "a@b.c" "pw" []).1) =
      ((signup (fun p => p) true "Al" "a@b.c" "pw" []).1, .render "signup",
        [("Email already registered. Please login instead.", "error")]) ∧
    signup (fun p => p) true "" "x@y" "pw" [] =
      ([], .render "signup", [("Please fill in all fields.", "error")]) := by
  have h := C6_duplicate_email (fun p => p) true true "Al" "a@b.c" "pw" "Bo" "qq" []
    (by decide) (by decide) (by decide) (by decide) (by decide) (by decide)
  exact ⟨h.1, (h.2 "" "x@y" "pw" [] [] (Or.inl (by decide))).1⟩

/-- C7 counterexample: after registering with password `pw`, authenticating
with the empty password — which differs byte-for-byte from `pw` — does not
fail with the invalid-credentials flash: it fails with the fill-all-fields
validation flash. -/
theorem C7_auth_counterexample :
    login (fun h p => h == p) "a@b.c" ""
        ((signup (fun p => p) true "Al" "a@b.c" "pw" []).1) =
      (.render "login", [("Please fill in all fields.", "error")], none) ∧
    (login (fun h p => h == p) "a@b.c" ""
        ((signup (fun p => p) true "Al" "a@b.c" "pw" []).1)).2.1 ≠
      [("Invalid email or password.", "error")] := by
  constructor
  · decide
  · decide

/-- C7 (amended): assuming the external hash verifier accepts exactly the
registered password, registering with a fresh email and then logging in with
the same email and password succeeds and yields the id assigned at
registration (the same id on every such call, the function being
deterministic), while logging in with any non-empty password differing from
the registered one fails with the invalid-credentials flash; the empty
password is instead rejected by field validation. -/
theorem C7_register_authenticate (gen : String → String) (check : String → String → Bool)
    (Hcheck : ∀ p q, check (gen p) q = true ↔ q = p)
    (fn em pw : String) (db : List UserRow)
    (hfn : (pyStrip fn == "") = false) (hem : (pyStrip em == "") = false)
    (hpw : (pw == "") = false)
    (hfresh : db.find? (fun u => u.email == pyStrip em) = none) :
    login check em pw (signup gen true fn em pw db).1 =
      (.redirect "/home", [("Login successful!", "success")],
        some (db.length + 1, pyStrip fn)) ∧
    (∀ pw2, pw2 ≠ pw → (pw2 == "") = false →
      login check em pw2 (signup gen true fn em pw db).1 =
        (.render "login", [("Invalid email or password.", "error")], none)) := by
  have hdb1 : (signup gen true fn em pw db).1 =
      db ++ [⟨db.length + 1, pyStrip fn, pyStrip em, gen pw⟩] := by
    rw [signup_success gen fn em pw db hfn hem hpw hfresh]
  have hfind := find_after_signup gen fn em pw db hfresh
  constructor
  · have hc : check (gen pw) pw = true := (Hcheck pw pw).mpr rfl
    have hvalidL : ¬ ((pyStrip em == "" || pw == "") = true) := by
      simp [hem, hpw]
    rw [hdb1]
    simp only [login]
    rw [if_neg hvalidL, hfind]
    simp [hc]
  · intro pw2 hne hpw2
    have hc : check (gen pw) pw2 = false := by
      cases hcc : check (gen pw) pw2 with
      | false => rfl
      | true => exact absurd ((Hcheck pw pw2).mp hcc) hne
    have hvalidL : ¬ ((pyStrip em == "" || pw2 == "") = true) := by
      simp [hem, hpw2]
    rw [hdb1]
    simp only [login]
    rw [if_neg hvalidL, hfind]
    simp [hc]

/-- Witness for the amended C7 with the identity hash and equality check. -/
theorem C7_register_authenticate_witness :
    login (fun h p => h == p) "a@b.c" "pw"
        ((signup (fun p => p) true "Al" "a@b.c" "pw" []).1) =
      (.redirect "/home", [("Login successful!", "success")], some (1, "Al")) ∧
    login (fun h p => h == p) "a@b.c" "xw"
        ((signup (fun p => p) true "Al" "a@b.c" "pw" []).1) =
      (.render "login", [("Invalid email or password.", "error")], none) := by
  have h := C7_register_authenticate (fun p => p) (fun h p => h == p)
    (fun p q => by rw [beq_iff_eq]; exact eq_comm)
    "Al" "a@b.c" "pw" [] (by decide) (by decide) (by decide) (by decide)
  refine ⟨?_, h.2 "xw" (by decide) (by decide)⟩
  rw [h.1]
  decide


end CitizenAI
